import Mathlib

/-!
Verification of the streaming-chat core of the qwen-thai-lora repository.

The development shallowly embeds the code that the checked claims are
about:

* the three backend stream decoders
  (`src/src/interfaces/ollama_chat.py`, `src/chat_app_vllm.py`,
  `src/thai_model/interfaces/openai_chat.py`),
* the prompt composer (`VLLMChat._build_messages` in
  `src/chat_app_vllm.py`),
* the conversation store (`src/thai_model/core/chat_database.py`), and
* the database-backed GUI orchestrator
  (`DatabaseLLMGUIChat` in `src/thai_model/interfaces/web_chat_db.py`,
  whose parent class `LLMGUIChat` is the one defined in
  `src/chat_gui.py`).

Python dictionaries coming from `json.loads` are embedded as inductive
types whose constructors enumerate exactly the cases the source code
distinguishes; machine-level details the code never observes (timestamps,
byte counts) are elided and noted at each definition.
-/

namespace ThaiChat

/-- A conversation entry as the Python code keeps it in
`conversation_history` and in the display history: a dictionary
with the keys `role` and `content`. -/
structure ChatMsg where
  role : String
  content : String
deriving DecidableEq, Repr

/-- A unified token event of one decoded stream: a text fragment, or the
single terminal event of a completed stream. -/
inductive Event where
  | delta (fragment : String)
  | done
deriving DecidableEq, Repr

namespace OllamaWire

/-- One line of the raw-generate NDJSON stream as observed by
`OllamaChat._send_streaming_message` (src/src/interfaces/ollama_chat.py,
lines 108-121): a falsy line is dropped (`if line:`), a line on which
`json.loads` raises is skipped (`except json.JSONDecodeError: continue`),
and from a decoded object the code reads only the optional string field
`response` and the boolean `chunk.get('done', False)`. -/
inductive Line where
  | empty : Line
  | invalid : Line
  | frame (response : Option String) (done : Bool) : Line
deriving DecidableEq, Repr

/-- The read loop of `OllamaChat._send_streaming_message`
(src/src/interfaces/ollama_chat.py lines 108-121), also the loop of
`LLMGUIChat._stream_ollama` restricted to its accumulator: skips empty
and undecodable lines, appends each present `response` fragment to the
accumulated text, and stops at a frame with `done = true`.  Returns the
emitted fragments in order together with the final accumulated text. -/
def readLoop : List Line → String → List String × String
  | [], acc => ([], acc)
  | Line.empty :: rest, acc => readLoop rest acc
  | Line.invalid :: rest, acc => readLoop rest acc
  | Line.frame none d :: rest, acc =>
      if d then ([], acc) else readLoop rest acc
  | Line.frame (some t) d :: rest, acc =>
      if d then ([t], acc ++ t)
      else
        let r := readLoop rest (acc ++ t)
        (t :: r.1, r.2)

/-- The unified event stream of one raw-generate exchange: one Delta per
emitted fragment, then the single terminal event produced when the loop
ends and the method falls through to its completion epilogue. -/
def events (lines : List Line) : List Event :=
  ((readLoop lines "").1.map Event.delta) ++ [Event.done]

/-- The accumulated `ai_response` of one raw-generate exchange. -/
def accumulated (lines : List Line) : String :=
  (readLoop lines "").2

/-- A well-formed Delta frame: valid JSON carrying a `response` fragment
and no `done` flag. -/
def deltaFrames (ts : List String) : List Line :=
  ts.map (fun t => Line.frame (some t) false)

/-- Lines the raw-generate read loop skips without any effect: empty
lines, lines that fail JSON decoding, and decoded frames that carry
neither a `response` fragment nor `done=true`. -/
def Line.malformed : Line → Bool
  | Line.empty => true
  | Line.invalid => true
  | Line.frame none false => true
  | _ => false

/-- `OllamaChat._send_streaming_message` when a `KeyboardInterrupt`
arrives after the given lines have been processed
(src/src/interfaces/ollama_chat.py lines 122-130): the handler appends
the literal marker to `ai_response`, and the method still appends an
assistant entry to `conversation_history` and returns the text
normally. -/
def interrupted (history : List ChatMsg) (lines : List Line) :
    List ChatMsg × String :=
  let resp := (readLoop lines "").2 ++ " [Response interrupted]"
  (history ++ [⟨"assistant", resp⟩], resp)

end OllamaWire

namespace VLLMWire

/-- One line of the OpenAI-compatible SSE stream as observed by
`VLLMChat._send_streaming_message` (src/chat_app_vllm.py lines 144-160):
falsy lines are dropped (`if line:`); lines that do not start with the
`data: ` marker are ignored; the `data: [DONE]` sentinel ends the loop;
a JSON decode failure is skipped; from a decoded object the code reads
only `choices[0].delta.content` when present (`frame none` covers a
missing or empty `choices`, a missing `delta`, and a `delta` without
`content`). -/
inductive Line where
  | empty : Line
  | noData : Line
  | doneSentinel : Line
  | invalid : Line
  | frame (content : Option String) : Line
deriving DecidableEq, Repr

/-- The read loop of `VLLMChat._send_streaming_message`
(src/chat_app_vllm.py lines 144-160): returns the emitted fragments in
order together with the final accumulated text. -/
def readLoop : List Line → String → List String × String
  | [], acc => ([], acc)
  | Line.empty :: rest, acc => readLoop rest acc
  | Line.noData :: rest, acc => readLoop rest acc
  | Line.doneSentinel :: _, acc => ([], acc)
  | Line.invalid :: rest, acc => readLoop rest acc
  | Line.frame none :: rest, acc => readLoop rest acc
  | Line.frame (some t) :: rest, acc =>
      let r := readLoop rest (acc ++ t)
      (t :: r.1, r.2)

/-- The unified event stream of one OpenAI-compatible SSE exchange. -/
def events (lines : List Line) : List Event :=
  ((readLoop lines "").1.map Event.delta) ++ [Event.done]

/-- The accumulated `ai_response` of one SSE exchange. -/
def accumulated (lines : List Line) : String :=
  (readLoop lines "").2

/-- A well-formed Delta frame: a `data: ` line whose JSON carries
`choices[0].delta.content`. -/
def deltaFrames (ts : List String) : List Line :=
  ts.map (fun t => Line.frame (some t))

/-- Lines the SSE read loop skips without any effect: empty lines, lines
without the `data: ` marker, undecodable JSON, and decoded frames without
a `choices[0].delta.content` field. -/
def Line.malformed : Line → Bool
  | Line.empty => true
  | Line.noData => true
  | Line.invalid => true
  | Line.frame none => true
  | _ => false

/-- `VLLMChat._send_streaming_message` when a `KeyboardInterrupt`
arrives after the given lines have been processed (src/chat_app_vllm.py
lines 161-169): the handler appends the literal marker to `ai_response`,
and the method still appends an assistant entry to
`conversation_history` and returns the text normally. -/
def interrupted (history : List ChatMsg) (lines : List Line) :
    List ChatMsg × String :=
  let resp := (readLoop lines "").2 ++ " [Response interrupted]"
  (history ++ [⟨"assistant", resp⟩], resp)

end VLLMWire

namespace OpenAIWire

/-- The vendor-API streaming loop of `OpenAIChat._send_streaming_message`
(src/thai_model/interfaces/openai_chat.py lines 166-171).  The HTTP
client library already consumes the SSE framing — including the terminal
`data: [DONE]` frame, which ends the chunk iterator — so the code sees a
sequence of chunk objects and reads `chunk.choices[0].delta.content`
from each, skipping chunks where it is `None`.  A chunk is therefore
embedded as its optional content field. -/
def readLoop : List (Option String) → String → List String × String
  | [], acc => ([], acc)
  | none :: rest, acc => readLoop rest acc
  | some t :: rest, acc =>
      let r := readLoop rest (acc ++ t)
      (t :: r.1, r.2)

/-- The unified event stream of one vendor-API exchange: the terminal
event is produced when the chunk iterator ends (which is what the
library does on the `data: [DONE]` terminal frame). -/
def events (chunks : List (Option String)) : List Event :=
  ((readLoop chunks "").1.map Event.delta) ++ [Event.done]

/-- The accumulated `full_response` of one vendor-API exchange. -/
def accumulated (chunks : List (Option String)) : String :=
  (readLoop chunks "").2

/-- A well-formed Delta chunk: one whose `delta.content` is present. -/
def deltaFrames (ts : List String) : List (Option String) :=
  ts.map some

end OpenAIWire

/-! ## Prompt composer (`VLLMChat._build_messages`, src/chat_app_vllm.py) -/

/-- The `detailed` entry of `self.reasoning_prompts`
(src/chat_app_vllm.py lines 27-47), byte for byte. -/
def detailedTemplate : String :=
  "\nThink step by step about this question. Show your detailed reasoning process:\n\n**🤔 Analysis:**\n1. What is being asked?\n2. What information do I need to consider?\n3. What are the key points or constraints?\n\n**🧩 Breakdown:**\n- Break down the problem into smaller parts\n- Consider different approaches or perspectives\n- Identify any assumptions I\x27m making\n\n**⚡ Logic Chain:**\n- Step through the reasoning logically\n- Show how each step leads to the next\n- Consider potential counterarguments or edge cases\n\n**💡 Conclusion:**\n[Your final answer with confidence level]\n\nQuestion: "

/-- The `simple` entry of `self.reasoning_prompts`
(src/chat_app_vllm.py lines 48-54), byte for byte. -/
def simpleTemplate : String :=
  "\nShow your thinking process briefly:\n\n**🤔 Thinking:** [Quick reasoning steps]\n**💡 Answer:** [Your response]\n\nQuestion: "

/-- The `chain` entry of `self.reasoning_prompts`
(src/chat_app_vllm.py lines 55-65), byte for byte. -/
def chainTemplate : String :=
  "\nUse chain-of-thought reasoning. Think through this step-by-step, showing each logical step:\n\nLet me think through this step by step:\nStep 1: [First step of reasoning]\nStep 2: [Second step of reasoning]\nStep 3: [Continue as needed]\nTherefore: [Final conclusion]\n\nQuestion: "

/-- `self.reasoning_prompts.get(mode, self.reasoning_prompts["simple"])`:
dictionary lookup with the `simple` template as the default. -/
def getReasoningPrompt (mode : String) : String :=
  if mode = "detailed" then detailedTemplate
  else if mode = "simple" then simpleTemplate
  else if mode = "chain" then chainTemplate
  else simpleTemplate

/-- `VLLMChat._build_messages` (src/chat_app_vllm.py lines 83-96): copies
every history entry into a fresh dictionary, then appends one user entry
whose content is the selected reasoning template concatenated with the
user input when `show_reasoning` is set, and the user input itself
otherwise. -/
def buildMessages (conversationHistory : List ChatMsg) (showReasoning : Bool)
    (reasoningMode : String) (userInput : String) : List ChatMsg :=
  let messages := conversationHistory.map (fun m => ⟨m.role, m.content⟩)
  let content :=
    if showReasoning then getReasoningPrompt reasoningMode ++ userInput
    else userInput
  messages ++ [⟨"user", content⟩]

/-! ## Conversation store (`ChatDatabaseManager`, src/thai_model/core/chat_database.py)

The PostgreSQL tables are embedded as in-memory row lists.  UUID values
are embedded as natural numbers, `uuid_generate_v4()` as an identifier
distinct from every identifier already present; `created_at` and
`updated_at` timestamps and the `message_id` column are elided because
none of the checked claims mention them; `metadata` JSONB values are
embedded as key-value lists. -/

/-- One row of the `chat_messages` table. -/
structure DbMessage where
  sessionId : Nat
  role : String
  content : String
  messageOrder : Nat
  metadata : List (String × String)
deriving DecidableEq, Repr

/-- One row of the `chat_sessions` table. -/
structure DbSession where
  sessionId : Nat
  sessionName : String
  backend : String
  model : String
deriving DecidableEq, Repr

/-- The two tables of the chat database. -/
structure Database where
  sessions : List DbSession
  messages : List DbMessage
deriving DecidableEq, Repr

/-- `uuid_generate_v4()` for the sessions table: a fresh identifier,
embedded as one more than the largest identifier in use. -/
def freshSessionId (db : Database) : Nat :=
  (db.sessions.map (fun s => s.sessionId)).foldl max 0 + 1

/-- `ChatDatabaseManager.create_session`
(src/thai_model/core/chat_database.py lines 108-122): defaults the
session name from backend, model and the current timestamp (`now`), and
inserts one session row, returning its fresh identifier. -/
def createSession (db : Database) (backend model : String)
    (sessionName : Option String) (now : String) : Database × Nat :=
  let name := sessionName.getD (backend ++ "-" ++ model ++ "-" ++ now)
  let sid := freshSessionId db
  ({ db with sessions := db.sessions ++ [⟨sid, name, backend, model⟩] }, sid)

/-- The rows of one session, in insertion order
(`WHERE session_id = %s`). -/
def sessionMessages (db : Database) (sid : Nat) : List DbMessage :=
  db.messages.filter (fun m => m.sessionId == sid)

/-- `SELECT COALESCE(MAX(message_order), 0) + 1 FROM chat_messages WHERE
session_id = %s` (src/thai_model/core/chat_database.py lines 136-141). -/
def nextOrder (db : Database) (sid : Nat) : Nat :=
  ((sessionMessages db sid).map (fun m => m.messageOrder)).foldl max 0 + 1

/-- `ChatDatabaseManager.add_message`
(src/thai_model/core/chat_database.py lines 130-148): reads the next
per-session order and inserts the row carrying it; both statements run
inside the one transaction that `get_connection` commits. -/
def addMessage (db : Database) (sid : Nat) (role content : String)
    (metadata : List (String × String)) : Database :=
  { db with
    messages := db.messages ++ [⟨sid, role, content, nextOrder db sid, metadata⟩] }

/-- The `message_order` column of one session, in insertion order. -/
def ordersOf (db : Database) (sid : Nat) : List Nat :=
  (sessionMessages db sid).map (fun m => m.messageOrder)

/-- A sequence of `add_message` calls: each entry carries the target
session, role, content and metadata of one call. -/
def runAdds (db : Database)
    (ops : List (Nat × String × String × List (String × String))) : Database :=
  ops.foldl (fun d op => addMessage d op.1 op.2.1 op.2.2.1 op.2.2.2) db

/-! ## Orchestrator (`DatabaseLLMGUIChat`, src/thai_model/interfaces/web_chat_db.py,
extending `LLMGUIChat`, src/chat_gui.py)

One `send_message_stream` call is a Python generator whose externally
visible behaviour is the ordered sequence of its effects: session rows
created and message rows appended through the store, and tuples yielded
to the consuming UI.  The embedding returns the post-call object state
together with that effect sequence; the outcome of the one external HTTP
exchange is an explicit argument. -/

/-- The fields of a `DatabaseLLMGUIChat` object that the modelled
operations read or write, together with the database it writes to.
`db_manager` presence is folded into `databaseEnabled`. -/
structure ChatState where
  db : Database
  databaseEnabled : Bool
  currentSessionId : Option Nat
  sessionName : Option String
  conversationHistory : List ChatMsg
  backend : String
  currentModel : String
  showReasoning : Bool
  reasoningMode : String
deriving DecidableEq, Repr

/-- One externally visible effect of a call: a session row created
through the store, a message row appended through the store, or one
`(message_box, display_history, status)` tuple yielded to the caller. -/
inductive Effect where
  | createSessionRow (sid : Nat)
  | dbAppend (sid : Nat) (role content : String)
      (metadata : List (String × String))
  | yieldOut (emptyMsg : String) (display : List ChatMsg) (status : String)
deriving DecidableEq, Repr

/-- Whether an effect is a store append. -/
def Effect.isDbAppendB : Effect → Bool
  | Effect.dbAppend _ _ _ _ => true
  | _ => false

/-- Whether an effect is a store append of an assistant message. -/
def Effect.isAssistantAppend : Effect → Bool
  | Effect.dbAppend _ role _ _ => role == "assistant"
  | _ => false

/-- List prefix test on the underlying character lists (used to recognise
status strings by their fixed literal head). -/
def strStarts (s pre : String) : Bool :=
  pre.toList.isPrefixOf s.toList

/-- Whether an effect is the completion acknowledgment of
`_stream_ollama`: the yield whose status line starts with the literal
completion marker (src/chat_gui.py line 204). -/
def Effect.isCompletedYield : Effect → Bool
  | Effect.yieldOut _ _ status => strStarts status "✅ Response completed"
  | _ => false

/-- `not message.strip()`: the message contains nothing but whitespace.
Python strips any Unicode whitespace; the embedding checks the ASCII
whitespace characters, which cover every input used here. -/
def isBlank (s : String) : Bool :=
  s.toList.all (fun c => c == ' ' || c == '\n' || c == '\t' || c == '\r')

/-- `history[-1]["content"] = text`: replace the content of the last
display entry.  The call sites always run after an assistant placeholder
was appended, so the list is never empty there; on `[]` the embedding
returns `[]`. -/
def setLast : List ChatMsg → String → List ChatMsg
  | [], _ => []
  | [m], text => [⟨m.role, text⟩]
  | m :: rest, text => m :: setLast rest text

/-- `DatabaseLLMGUIChat.start_new_session`
(src/thai_model/interfaces/web_chat_db.py lines 44-56): with the
database available it creates a session row and remembers its id and
default name; otherwise it falls back to a memory-only session with a
fresh id (`uuid.uuid4()`).  Either way the in-memory history is
cleared. -/
def startNewSession (st : ChatState) (backend model : String)
    (now : String) : ChatState × List Effect :=
  if st.databaseEnabled then
    let r := createSession st.db backend model none now
    ({ st with
        db := r.1
        currentSessionId := some r.2
        sessionName := some (backend ++ "-" ++ model ++ "-" ++ now)
        conversationHistory := [] },
     [Effect.createSessionRow r.2])
  else
    ({ st with
        currentSessionId := some (freshSessionId st.db)
        sessionName := some ("memory-session-" ++ now)
        conversationHistory := [] },
     [])

/-- `DatabaseLLMGUIChat.add_message_to_db`
(src/thai_model/interfaces/web_chat_db.py lines 58-64): appends through
the store when the database is enabled and a session is current, and
does nothing otherwise. -/
def addMessageToDb (st : ChatState) (role content : String)
    (metadata : List (String × String)) : ChatState × List Effect :=
  match st.currentSessionId, st.databaseEnabled with
  | some sid, true =>
      ({ st with db := addMessage st.db sid role content metadata },
       [Effect.dbAppend sid role content metadata])
  | _, _ => (st, [])

/-- The read loop of `LLMGUIChat._stream_ollama` (src/chat_gui.py lines
183-201): per present `response` fragment the accumulated text replaces
the content of the last display entry and one streaming-status tuple is
yielded; a frame with `done=true` ends the loop.  Returns the yield
effects, the final display history, and the accumulated text. -/
def streamOllamaLoop (model : String) :
    List OllamaWire.Line → List ChatMsg → String →
    List Effect × List ChatMsg × String
  | [], h, acc => ([], h, acc)
  | OllamaWire.Line.empty :: rest, h, acc => streamOllamaLoop model rest h acc
  | OllamaWire.Line.invalid :: rest, h, acc => streamOllamaLoop model rest h acc
  | OllamaWire.Line.frame none d :: rest, h, acc =>
      if d then ([], h, acc) else streamOllamaLoop model rest h acc
  | OllamaWire.Line.frame (some t) d :: rest, h, acc =>
      let acc1 := acc ++ t
      let h1 := setLast h acc1
      let e := Effect.yieldOut "" h1 ("🔄 Streaming from Ollama: " ++ model)
      if d then ([e], h1, acc1)
      else
        let r := streamOllamaLoop model rest h1 acc1
        (e :: r.1, r.2.1, r.2.2)

/-- How the one external HTTP exchange of `_stream_ollama` unfolds, as
far as the code can observe it: a non-200 status; a requests exception
raised after the given lines were already processed (`lines = []` is a
failure before any byte was received); or a complete iteration over the
response lines. -/
inductive StreamOutcome where
  | httpError (status : Nat) (body : String)
  | connectionError (lines : List OllamaWire.Line) (message : String)
  | success (lines : List OllamaWire.Line)
deriving DecidableEq, Repr

/-- `LLMGUIChat.send_message_stream` (src/chat_gui.py lines 117-157)
restricted to `backend = "ollama"`, inlining the `_stream_ollama` body
it delegates to (lines 159-204).  A blank message yields one error tuple
and returns with the state untouched.  Otherwise the user entry is
appended to the in-memory history and to the display, an empty assistant
placeholder is appended to the display, and the selected outcome branch
runs: a non-200 status or a requests exception overwrites the
placeholder with an error marker and yields one error tuple (the
exception is the `except` clause of `send_message_stream`, lines
148-155), while a completed iteration appends the accumulated assistant
text to the in-memory history and yields the completion tuple last. -/
def parentSendMessageStream (st : ChatState) (message : String)
    (history : List ChatMsg) (backend model : String) (reasoning : Bool)
    (rMode : String) (outcome : StreamOutcome) : ChatState × List Effect :=
  if isBlank message then
    (st, [Effect.yieldOut "" history "❌ Please enter a message"])
  else
    let st1 := { st with
      backend := backend
      currentModel := model
      showReasoning := reasoning
      reasoningMode := rMode
      conversationHistory := st.conversationHistory ++ [⟨"user", message⟩] }
    let h1 := history ++ [⟨"user", message⟩, ⟨"assistant", ""⟩]
    match outcome with
    | StreamOutcome.httpError status body =>
        let errorMsg := "Error: HTTP " ++ toString status ++ " - " ++ body
        (st1, [Effect.yieldOut "" (setLast h1 ("❌ " ++ errorMsg)) errorMsg])
    | StreamOutcome.connectionError lines msg =>
        let r := streamOllamaLoop model lines h1 ""
        let errorMsg := "Connection error: " ++ msg
        (st1, r.1 ++ [Effect.yieldOut "" (setLast r.2.1 ("❌ " ++ errorMsg)) errorMsg])
    | StreamOutcome.success lines =>
        let r := streamOllamaLoop model lines h1 ""
        ({ st1 with
            conversationHistory := st1.conversationHistory ++ [⟨"assistant", r.2.2⟩] },
         r.1 ++ [Effect.yieldOut "" r.2.1
                  ("✅ Response completed using Ollama: " ++ model)])

/-- The statements of `DatabaseLLMGUIChat.send_message_stream` that run
before the parent generator is consumed
(src/thai_model/interfaces/web_chat_db.py lines 140-157): set the
backend fields, open a session when none is current, and append the user
message through the store.  When this code has run, the exchange is in
flight; the method keeps no record of that fact in any state field. -/
def dbSendBegin (st : ChatState) (message : String) (backend model : String)
    (reasoning : Bool) (rMode : String) (now : String) :
    ChatState × List Effect :=
  let st1 := { st with
    backend := backend
    currentModel := model
    showReasoning := reasoning
    reasoningMode := rMode }
  let r1 :=
    match st1.currentSessionId with
    | none => startNewSession st1 backend model now
    | some _ => (st1, [])
  let r2 := addMessageToDb r1.1 "user" message []
  (r2.1, r1.2 ++ r2.2)

/-- The metadata dictionary attached to the assistant append
(src/thai_model/interfaces/web_chat_db.py lines 163-168). -/
def assistantMetadata (backend model : String) (reasoning : Bool)
    (rMode : String) : List (String × String) :=
  [("backend", backend), ("model", model),
   ("reasoning_enabled", if reasoning then "True" else "False"),
   ("reasoning_mode", if reasoning then rMode else "None")]

/-- `DatabaseLLMGUIChat.send_message_stream`
(src/thai_model/interfaces/web_chat_db.py lines 140-168) for the ollama
backend: the pre-stream statements (`dbSendBegin`), then every tuple of
the parent generator re-yielded to the caller, then — only once the
parent generator is exhausted — the assistant append through the store,
performed exactly when the in-memory conversation history ends with an
assistant entry. -/
def dbSendMessageStream (st : ChatState) (message : String)
    (history : List ChatMsg) (backend model : String) (reasoning : Bool)
    (rMode : String) (now : String) (outcome : StreamOutcome) :
    ChatState × List Effect :=
  let b := dbSendBegin st message backend model reasoning rMode now
  let p := parentSendMessageStream b.1 message history backend model
            reasoning rMode outcome
  let tail :=
    match p.1.conversationHistory.getLast? with
    | some m =>
        if m.role = "assistant" then
          addMessageToDb p.1 "assistant" m.content
            (assistantMetadata backend model reasoning rMode)
        else (p.1, [])
    | none => (p.1, [])
  (tail.1, b.2 ++ p.2 ++ tail.2)

/-- `DatabaseLLMGUIChat.clear_conversation`
(src/thai_model/interfaces/web_chat_db.py lines 201-206) together with
the parent `LLMGUIChat.clear_conversation` it calls (src/chat_gui.py
lines 330-333): forgets the current session id and name, empties the
in-memory history, and returns the cleared display and a status line.
No store operation is performed. -/
def clearConversation (st : ChatState) : ChatState × List ChatMsg × String :=
  ({ st with
      currentSessionId := none
      sessionName := none
      conversationHistory := [] },
   [], "🗑️ Conversation cleared")

/-! ## Concrete instances used to evaluate the orchestrator -/

/-- A chat object connected to a store holding one fresh session (id 1)
with no messages, the object pointing at that session. -/
def baseState : ChatState :=
  ⟨⟨[⟨1, "s", "ollama", "llama3.1:8b"⟩], []⟩, true, some 1, some "s", [],
   "ollama", "llama3.1:8b", false, "simple"⟩

/-- A Done-terminated backend exchange delivering the fragments
`"He"`, `"llo"`. -/
def doneOutcome : StreamOutcome :=
  StreamOutcome.success
    [OllamaWire.Line.frame (some "He") false,
     OllamaWire.Line.frame (some "llo") false,
     OllamaWire.Line.frame none true]

/-- The effect trace of one completed streaming exchange on
`baseState`. -/
def doneTrace : List Effect :=
  (dbSendMessageStream baseState "hi" [] "ollama" "llama3.1:8b" false
    "simple" "t" doneOutcome).2

/-- A backend exchange dropped after delivering the fragments `"He"`,
`"llo"` (two Delta fragments, then a connection error). -/
def dropOutcome : StreamOutcome :=
  StreamOutcome.connectionError
    [OllamaWire.Line.frame (some "He") false,
     OllamaWire.Line.frame (some "llo") false] "boom"

/-- The effect trace of one mid-stream-interrupted exchange on
`baseState`. -/
def dropTrace : List Effect :=
  (dbSendMessageStream baseState "hi" [] "ollama" "llama3.1:8b" false
    "simple" "t" dropOutcome).2

/-- `baseState` right after the pre-stream statements of a first
`send_message_stream` call ran: the user row of that call is persisted
and its exchange is in flight (`Streaming` in the terminology of the
specification). -/
def busyState : ChatState :=
  (dbSendBegin baseState "hi" "ollama" "llama3.1:8b" false "simple" "t").1

/-- A chat object whose session 1 already holds one completed exchange
(user `"hi"`, assistant `"Hello"`), both persisted and mirrored in the
in-memory conversation history. -/
def staleHistoryState : ChatState :=
  ⟨⟨[⟨1, "s", "ollama", "llama3.1:8b"⟩],
    [⟨1, "user", "hi", 1, []⟩, ⟨1, "assistant", "Hello", 2, []⟩]⟩,
   true, some 1, some "s",
   [⟨"user", "hi"⟩, ⟨"assistant", "Hello"⟩],
   "ollama", "llama3.1:8b", false, "simple"⟩

/-- A sample interleaving of store appends: two calls for session 5
around one call for session 7. -/
def sampleOps : List (Nat × String × String × List (String × String)) :=
  [(5, "user", "a", []), (7, "user", "b", []), (5, "assistant", "c", [])]

/-! ## Helper lemmas -/

/-- Running the raw-generate read loop over a block of well-formed Delta
frames emits exactly those fragments and folds them into the
accumulator, then continues with the remaining lines. -/
theorem ollama_readLoop_deltaFrames (ts : List String)
    (rest : List OllamaWire.Line) (acc : String) :
    OllamaWire.readLoop (OllamaWire.deltaFrames ts ++ rest) acc =
      (ts ++ (OllamaWire.readLoop rest (ts.foldl (· ++ ·) acc)).1,
       (OllamaWire.readLoop rest (ts.foldl (· ++ ·) acc)).2) := by
  induction ts generalizing acc with
  | nil => simp [OllamaWire.deltaFrames]
  | cons t ts ih =>
      simp only [OllamaWire.deltaFrames] at ih ⊢
      simp [OllamaWire.readLoop, ih]

/-- Running the SSE read loop over a block of well-formed Delta frames
emits exactly those fragments and folds them into the accumulator, then
continues with the remaining lines. -/
theorem vllm_readLoop_deltaFrames (ts : List String)
    (rest : List VLLMWire.Line) (acc : String) :
    VLLMWire.readLoop (VLLMWire.deltaFrames ts ++ rest) acc =
      (ts ++ (VLLMWire.readLoop rest (ts.foldl (· ++ ·) acc)).1,
       (VLLMWire.readLoop rest (ts.foldl (· ++ ·) acc)).2) := by
  induction ts generalizing acc with
  | nil => simp [VLLMWire.deltaFrames]
  | cons t ts ih =>
      simp only [VLLMWire.deltaFrames] at ih ⊢
      simp [VLLMWire.readLoop, ih]

/-- Running the vendor-API chunk loop over a block of present-content
chunks emits exactly those fragments and folds them into the
accumulator, then continues with the remaining chunks. -/
theorem openai_readLoop_deltaFrames (ts : List String)
    (rest : List (Option String)) (acc : String) :
    OpenAIWire.readLoop (OpenAIWire.deltaFrames ts ++ rest) acc =
      (ts ++ (OpenAIWire.readLoop rest (ts.foldl (· ++ ·) acc)).1,
       (OpenAIWire.readLoop rest (ts.foldl (· ++ ·) acc)).2) := by
  induction ts generalizing acc with
  | nil => simp [OpenAIWire.deltaFrames]
  | cons t ts ih =>
      simp only [OpenAIWire.deltaFrames] at ih ⊢
      simp [OpenAIWire.readLoop, ih]

/-- `String.join` is the left fold of append from the empty string. -/
theorem join_eq_foldl (ts : List String) :
    String.join ts = ts.foldl (· ++ ·) "" := rfl

/-! ## Claim theorems -/

/-- C6: for every Backend Adapter variant, decoding a stream of N
well-formed Delta frames followed by one terminal frame (`done=true` for
the raw-generate dialect, `data: [DONE]` for the OpenAI-compatible SSE
dialect, and — for the vendor-API dialect whose client library consumes
the `data: [DONE]` frame itself — the resulting end of the chunk
iterator) produces exactly the N Delta events in input order followed by
exactly one terminal event with no event after it, and the accumulated
response equals the in-order concatenation of the N fragments. -/
theorem c6_delta_frames_then_terminal (ts : List String) :
    OllamaWire.events (OllamaWire.deltaFrames ts ++ [OllamaWire.Line.frame none true])
        = ts.map Event.delta ++ [Event.done]
  ∧ OllamaWire.accumulated (OllamaWire.deltaFrames ts ++ [OllamaWire.Line.frame none true])
        = String.join ts
  ∧ VLLMWire.events (VLLMWire.deltaFrames ts ++ [VLLMWire.Line.doneSentinel])
        = ts.map Event.delta ++ [Event.done]
  ∧ VLLMWire.accumulated (VLLMWire.deltaFrames ts ++ [VLLMWire.Line.doneSentinel])
        = String.join ts
  ∧ OpenAIWire.events (OpenAIWire.deltaFrames ts)
        = ts.map Event.delta ++ [Event.done]
  ∧ OpenAIWire.accumulated (OpenAIWire.deltaFrames ts)
        = String.join ts := by
  have h1 := ollama_readLoop_deltaFrames ts [OllamaWire.Line.frame none true] ""
  have h2 := vllm_readLoop_deltaFrames ts [VLLMWire.Line.doneSentinel] ""
  have h3 := openai_readLoop_deltaFrames ts [] ""
  simp [OllamaWire.readLoop, VLLMWire.readLoop, OpenAIWire.readLoop] at h1 h2 h3
  refine ⟨?_, ?_, ?_, ?_, ?_, ?_⟩ <;>
    simp [OllamaWire.events, OllamaWire.accumulated, VLLMWire.events,
      VLLMWire.accumulated, OpenAIWire.events, OpenAIWire.accumulated,
      h1, h2, h3, join_eq_foldl]

/-- Skipping the malformed lines of a raw-generate stream changes
nothing: the read loop gives the same result on the filtered stream. -/
theorem ollama_readLoop_filter_malformed (lines : List OllamaWire.Line)
    (acc : String) :
    OllamaWire.readLoop (lines.filter (fun l => ! l.malformed)) acc
      = OllamaWire.readLoop lines acc := by
  induction lines generalizing acc with
  | nil => rfl
  | cons l rest ih =>
      cases l with
      | empty =>
          simpa [List.filter_cons, OllamaWire.readLoop,
            show OllamaWire.Line.malformed OllamaWire.Line.empty = true from rfl]
            using ih acc
      | invalid =>
          simpa [List.filter_cons, OllamaWire.readLoop,
            show OllamaWire.Line.malformed OllamaWire.Line.invalid = true from rfl]
            using ih acc
      | frame resp d =>
          cases resp with
          | none =>
              cases d with
              | false =>
                  simpa [List.filter_cons, OllamaWire.readLoop,
                    show OllamaWire.Line.malformed
                      (OllamaWire.Line.frame none false) = true from rfl]
                    using ih acc
              | true =>
                  simp [List.filter_cons, OllamaWire.readLoop,
                    show OllamaWire.Line.malformed
                      (OllamaWire.Line.frame none true) = false from rfl]
          | some t =>
              cases d with
              | false =>
                  simp [List.filter_cons, OllamaWire.readLoop, ih,
                    show OllamaWire.Line.malformed
                      (OllamaWire.Line.frame (some t) false) = false from rfl]
              | true =>
                  simp [List.filter_cons, OllamaWire.readLoop,
                    show OllamaWire.Line.malformed
                      (OllamaWire.Line.frame (some t) true) = false from rfl]

/-- Skipping the malformed lines of an OpenAI-compatible SSE stream
changes nothing: the read loop gives the same result on the filtered
stream. -/
theorem vllm_readLoop_filter_malformed (lines : List VLLMWire.Line)
    (acc : String) :
    VLLMWire.readLoop (lines.filter (fun l => ! l.malformed)) acc
      = VLLMWire.readLoop lines acc := by
  induction lines generalizing acc with
  | nil => rfl
  | cons l rest ih =>
      cases l with
      | empty =>
          simpa [List.filter_cons, VLLMWire.readLoop,
            show VLLMWire.Line.malformed VLLMWire.Line.empty = true from rfl]
            using ih acc
      | noData =>
          simpa [List.filter_cons, VLLMWire.readLoop,
            show VLLMWire.Line.malformed VLLMWire.Line.noData = true from rfl]
            using ih acc
      | doneSentinel =>
          simp [List.filter_cons, VLLMWire.readLoop,
            show VLLMWire.Line.malformed VLLMWire.Line.doneSentinel = false from rfl]
      | invalid =>
          simpa [List.filter_cons, VLLMWire.readLoop,
            show VLLMWire.Line.malformed VLLMWire.Line.invalid = true from rfl]
            using ih acc
      | frame c =>
          cases c with
          | none =>
              simpa [List.filter_cons, VLLMWire.readLoop,
                show VLLMWire.Line.malformed (VLLMWire.Line.frame none) = true from rfl]
                using ih acc
          | some t =>
              simp [List.filter_cons, VLLMWire.readLoop, ih,
                show VLLMWire.Line.malformed (VLLMWire.Line.frame (some t)) = false from rfl]

/-- C7: for every input stream of either line-oriented adapter, the
lines that are not valid JSON — or are valid frames missing the expected
content field — are skipped without emitting any event, without ending
the stream early and without changing the accumulated text: decoding the
stream equals decoding the same stream with the malformed lines
removed. -/
theorem c7_malformed_lines_skipped (lines : List OllamaWire.Line)
    (lines2 : List VLLMWire.Line) (acc : String) :
    OllamaWire.readLoop (lines.filter (fun l => ! l.malformed)) acc
        = OllamaWire.readLoop lines acc
  ∧ OllamaWire.events (lines.filter (fun l => ! l.malformed))
        = OllamaWire.events lines
  ∧ OllamaWire.accumulated (lines.filter (fun l => ! l.malformed))
        = OllamaWire.accumulated lines
  ∧ VLLMWire.readLoop (lines2.filter (fun l => ! l.malformed)) acc
        = VLLMWire.readLoop lines2 acc
  ∧ VLLMWire.events (lines2.filter (fun l => ! l.malformed))
        = VLLMWire.events lines2
  ∧ VLLMWire.accumulated (lines2.filter (fun l => ! l.malformed))
        = VLLMWire.accumulated lines2 :=
  ⟨ollama_readLoop_filter_malformed lines acc,
   by simp [OllamaWire.events, ollama_readLoop_filter_malformed],
   by simp [OllamaWire.accumulated, ollama_readLoop_filter_malformed],
   vllm_readLoop_filter_malformed lines2 acc,
   by simp [VLLMWire.events, vllm_readLoop_filter_malformed],
   by simp [VLLMWire.accumulated, vllm_readLoop_filter_malformed]⟩

/-- C10: in the raw-generate and OpenAI-compatible CLI streaming
clients, a user interrupt (`KeyboardInterrupt`) arriving after K Delta
fragments still returns normally and appends an assistant entry to the
in-memory conversation history whose content is the concatenation of
those K fragments followed by the literal `" [Response interrupted]"`
marker. -/
theorem c10_interrupt_keeps_partial (history : List ChatMsg)
    (ts : List String) :
    OllamaWire.interrupted history (OllamaWire.deltaFrames ts)
        = (history ++ [⟨"assistant", String.join ts ++ " [Response interrupted]"⟩],
           String.join ts ++ " [Response interrupted]")
  ∧ VLLMWire.interrupted history (VLLMWire.deltaFrames ts)
        = (history ++ [⟨"assistant", String.join ts ++ " [Response interrupted]"⟩],
           String.join ts ++ " [Response interrupted]") := by
  have h1 := ollama_readLoop_deltaFrames ts [] ""
  have h2 := vllm_readLoop_deltaFrames ts [] ""
  simp [OllamaWire.readLoop, VLLMWire.readLoop] at h1 h2
  constructor <;>
    simp [OllamaWire.interrupted, VLLMWire.interrupted, h1, h2, join_eq_foldl]

/-- The per-entry copy `_build_messages` makes of the history is the
identity. -/
theorem map_copy_eq (l : List ChatMsg) :
    l.map (fun m => (⟨m.role, m.content⟩ : ChatMsg)) = l :=
  List.map_id l

/-- C8: the composed message list passes every history entry through
verbatim and appends one user entry; that entry's content is exactly the
original user text when reasoning is off, and the fixed literal template
of the selected mode (`simple` / `detailed` / `chain`) concatenated with
the original user text when reasoning is on — so it starts with the
template and ends with the unchanged user text.  The composer is a pure
function of its arguments. -/
theorem c8_composer_spec (h : List ChatMsg) (u mode : String) :
    buildMessages h false mode u = h ++ [⟨"user", u⟩]
  ∧ buildMessages h true "simple" u = h ++ [⟨"user", simpleTemplate ++ u⟩]
  ∧ buildMessages h true "detailed" u = h ++ [⟨"user", detailedTemplate ++ u⟩]
  ∧ buildMessages h true "chain" u = h ++ [⟨"user", chainTemplate ++ u⟩] := by
  refine ⟨?_, ?_, ?_, ?_⟩ <;>
    simp [buildMessages, getReasoningPrompt, map_copy_eq]

/-- The initial value bounds a left `max` fold from below. -/
theorem foldl_max_init_le (l : List Nat) (a : Nat) : a ≤ l.foldl max a := by
  induction l generalizing a with
  | nil => simp
  | cons x l ih => exact le_trans (le_max_left a x) (ih (max a x))

/-- Every member bounds a left `max` fold from below. -/
theorem foldl_max_mem_le (l : List Nat) (a x : Nat) (hx : x ∈ l) :
    x ≤ l.foldl max a := by
  induction l generalizing a with
  | nil => cases hx
  | cons y l ih =>
      rcases List.mem_cons.mp hx with h | h
      · subst h
        exact le_trans (le_max_right a x) (foldl_max_init_le l (max a x))
      · exact ih (max a y) h

/-- The `max` fold of the block `1..k` from 0 is `k`. -/
theorem foldl_max_range_one (k : Nat) :
    (List.range' 1 k).foldl max 0 = k := by
  induction k with
  | zero => rfl
  | succ k ih =>
      rw [List.range'_concat, List.foldl_append, ih]
      show max k (1 + 1 * k) = k + 1
      rw [Nat.max_eq_right (by omega)]
      omega

/-- Appending a row for a session extends exactly that session's row
list, with the freshly computed order. -/
theorem sessionMessages_addMessage_self (db : Database) (sid : Nat)
    (role content : String) (md : List (String × String)) :
    sessionMessages (addMessage db sid role content md) sid
      = sessionMessages db sid
          ++ [⟨sid, role, content, nextOrder db sid, md⟩] := by
  simp [sessionMessages, addMessage, List.filter_append]

/-- Appending a row for one session leaves every other session's row
list unchanged. -/
theorem sessionMessages_addMessage_ne (db : Database) (k s : Nat)
    (role content : String) (md : List (String × String)) (h : k ≠ s) :
    sessionMessages (addMessage db k role content md) s
      = sessionMessages db s := by
  simp [sessionMessages, addMessage, List.filter_append, h]

/-- Creating a session row changes no message row. -/
theorem sessionMessages_createSession (db : Database) (backend model : String)
    (name : Option String) (now : String) (s : Nat) :
    sessionMessages (createSession db backend model name now).1 s
      = sessionMessages db s := by
  simp [createSession, sessionMessages]

/-- After any sequence of `add_message` calls, a session whose order
column was exactly the block `1..k` has order column exactly `1..(k+c)`,
where `c` is the number of calls in the sequence targeting it. -/
theorem ordersOf_runAdds
    (ops : List (Nat × String × String × List (String × String)))
    (db : Database) (s k : Nat) (h : ordersOf db s = List.range' 1 k) :
    ordersOf (runAdds db ops) s
      = List.range' 1 (k + ops.countP (fun op => op.1 == s)) := by
  induction ops generalizing db k with
  | nil => simpa [runAdds] using h
  | cons op rest ih =>
      have hrun : runAdds db (op :: rest)
          = runAdds (addMessage db op.1 op.2.1 op.2.2.1 op.2.2.2) rest := rfl
      by_cases hs : op.1 = s
      · subst hs
        have hnext : nextOrder db op.1 = k + 1 := by
          have hn : nextOrder db op.1 = (ordersOf db op.1).foldl max 0 + 1 := rfl
          rw [hn, h, foldl_max_range_one]
        have hord : ordersOf (addMessage db op.1 op.2.1 op.2.2.1 op.2.2.2) op.1
            = List.range' 1 (k + 1) := by
          have hone : (1 : Nat) + 1 * k = k + 1 := by omega
          have h' : List.map (fun m => m.messageOrder) (sessionMessages db op.1)
              = List.range' 1 k := h
          rw [ordersOf, sessionMessages_addMessage_self, List.map_append, hnext,
            List.range'_concat, hone, h']
          simp
        rw [hrun, ih _ _ hord, List.countP_cons_of_pos _ _ (by simp)]
        congr 1
        omega
      · have hord : ordersOf (addMessage db op.1 op.2.1 op.2.2.1 op.2.2.2) s
            = List.range' 1 k := by
          rw [ordersOf, sessionMessages_addMessage_ne _ _ _ _ _ _ hs]
          exact h
        rw [hrun, ih _ _ hord, List.countP_cons_of_neg _ _ (by simp [hs])]

/-- C4: starting from a session with no persisted rows, after any
sequence of successful `add_message` calls — interleaved arbitrarily
with calls targeting other sessions — the persisted `message_order`
values of that session are exactly the integers `1..n`, where n is the
number of calls that targeted it: strictly increasing, with no gaps and
no duplicates; each order is computed and inserted inside the single
transaction of its call. -/
theorem c4_orders_exactly_one_to_n (db : Database) (s : Nat)
    (ops : List (Nat × String × String × List (String × String)))
    (h : ordersOf db s = []) :
    ordersOf (runAdds db ops) s
        = List.range' 1 (ops.countP (fun op => op.1 == s))
  ∧ (ordersOf (runAdds db ops) s).Pairwise (· < ·) := by
  have h0 : ordersOf db s = List.range' 1 0 := by simpa using h
  have hrun := ordersOf_runAdds ops db s 0 h0
  refine ⟨by simpa using hrun, ?_⟩
  rw [hrun]
  exact List.pairwise_lt_range' 1 _

/-- C4 witness: `sampleOps` interleaves two appends for session 5 with
one append for session 7; starting from the empty store, session 5 ends
with orders exactly `1, 2`. -/
theorem c4_orders_exactly_one_to_n_witness :
    ordersOf (⟨[], []⟩ : Database) 5 = []
  ∧ (ordersOf (runAdds ⟨[], []⟩ sampleOps) 5
        = List.range' 1 (sampleOps.countP (fun op => op.1 == 5))
     ∧ (ordersOf (runAdds ⟨[], []⟩ sampleOps) 5).Pairwise (· < ·)) :=
  ⟨rfl, c4_orders_exactly_one_to_n ⟨[], []⟩ 5 sampleOps rfl⟩

/-- The read loop of `_stream_ollama` yields to the caller only: its
effect list contains no store append. -/
theorem streamOllamaLoop_no_append (model : String)
    (lines : List OllamaWire.Line) (h : List ChatMsg) (acc : String) :
    (streamOllamaLoop model lines h acc).1.filter Effect.isDbAppendB = [] := by
  induction lines generalizing h acc with
  | nil => rfl
  | cons l rest ih =>
      cases l with
      | empty => simpa [streamOllamaLoop] using ih h acc
      | invalid => simpa [streamOllamaLoop] using ih h acc
      | frame resp d =>
          cases resp with
          | none =>
              cases d with
              | false => simpa [streamOllamaLoop] using ih h acc
              | true => simp [streamOllamaLoop]
          | some t =>
              cases d with
              | false => simp [streamOllamaLoop, Effect.isDbAppendB, ih]
              | true => simp [streamOllamaLoop, Effect.isDbAppendB]

/-- `add_message_to_db` changes no object field except the store. -/
theorem addMessageToDb_proj (st : ChatState) (role content : String)
    (md : List (String × String)) :
    (addMessageToDb st role content md).1.currentSessionId = st.currentSessionId
  ∧ (addMessageToDb st role content md).1.databaseEnabled = st.databaseEnabled
  ∧ (addMessageToDb st role content md).1.conversationHistory
      = st.conversationHistory := by
  cases hcs : st.currentSessionId <;> cases hdb : st.databaseEnabled <;>
    simp [addMessageToDb, hcs, hdb]

/-- After the pre-stream statements of `send_message_stream` with the
database enabled: a session is current, the database is still enabled,
and the only store append performed so far is the user row. -/
theorem dbSendBegin_spec (st : ChatState) (message backend model now : String)
    (reasoning : Bool) (rMode : String) (hdb : st.databaseEnabled = true) :
    ∃ sid,
      (dbSendBegin st message backend model reasoning rMode now).1.currentSessionId
          = some sid
    ∧ (dbSendBegin st message backend model reasoning rMode now).1.databaseEnabled
          = true
    ∧ (dbSendBegin st message backend model reasoning rMode now).2.filter
          Effect.isDbAppendB
        = [Effect.dbAppend sid "user" message []] := by
  cases hcs : st.currentSessionId with
  | none =>
      exact ⟨freshSessionId st.db, by
        refine ⟨?_, ?_, ?_⟩ <;>
          simp [dbSendBegin, startNewSession, addMessageToDb, createSession,
            hcs, hdb, Effect.isDbAppendB]⟩
  | some sid =>
      exact ⟨sid, by
        refine ⟨?_, ?_, ?_⟩ <;>
          simp [dbSendBegin, startNewSession, addMessageToDb,
            hcs, hdb, Effect.isDbAppendB]⟩

/-- `send_message_stream` of the parent class on a blank message:
one error tuple, state untouched. -/
theorem parent_blank_eq (st : ChatState) (message : String)
    (history : List ChatMsg) (backend model : String) (reasoning : Bool)
    (rMode : String) (outcome : StreamOutcome)
    (hmsg : isBlank message = true) :
    parentSendMessageStream st message history backend model reasoning rMode
        outcome
      = (st, [Effect.yieldOut "" history "❌ Please enter a message"]) := by
  simp [parentSendMessageStream, hmsg]

/-- `send_message_stream` of the parent class when the exchange
completes: the settings are updated, the user entry and then the
accumulated assistant entry are appended to the in-memory history, the
per-token tuples are yielded and the completion tuple is yielded
last. -/
theorem parent_success_eq (st : ChatState) (message : String)
    (history : List ChatMsg) (backend model : String) (reasoning : Bool)
    (rMode : String) (lines : List OllamaWire.Line)
    (hmsg : isBlank message = false) :
    parentSendMessageStream st message history backend model reasoning rMode
        (StreamOutcome.success lines)
      = ({ st with
            backend := backend
            currentModel := model
            showReasoning := reasoning
            reasoningMode := rMode
            conversationHistory := (st.conversationHistory ++ [⟨"user", message⟩])
              ++ [⟨"assistant",
                    (streamOllamaLoop model lines
                      (history ++ [⟨"user", message⟩, ⟨"assistant", ""⟩]) "").2.2⟩] },
         (streamOllamaLoop model lines
            (history ++ [⟨"user", message⟩, ⟨"assistant", ""⟩]) "").1
           ++ [Effect.yieldOut ""
                 (streamOllamaLoop model lines
                   (history ++ [⟨"user", message⟩, ⟨"assistant", ""⟩]) "").2.1
                 ("✅ Response completed using Ollama: " ++ model)]) := by
  simp [parentSendMessageStream, hmsg]

/-- `send_message_stream` of the parent class when the connection drops
mid-stream: the user entry is appended to the in-memory history (and no
assistant entry is), the tuples for the fragments received so far are
yielded, and the last yield carries the display whose final entry was
overwritten with the connection-error marker. -/
theorem parent_connection_error_eq (st : ChatState) (message : String)
    (history : List ChatMsg) (backend model : String) (reasoning : Bool)
    (rMode : String) (lines : List OllamaWire.Line) (err : String)
    (hmsg : isBlank message = false) :
    parentSendMessageStream st message history backend model reasoning rMode
        (StreamOutcome.connectionError lines err)
      = ({ st with
            backend := backend
            currentModel := model
            showReasoning := reasoning
            reasoningMode := rMode
            conversationHistory := st.conversationHistory ++ [⟨"user", message⟩] },
         (streamOllamaLoop model lines
            (history ++ [⟨"user", message⟩, ⟨"assistant", ""⟩]) "").1
           ++ [Effect.yieldOut ""
                 (setLast
                   (streamOllamaLoop model lines
                     (history ++ [⟨"user", message⟩, ⟨"assistant", ""⟩]) "").2.1
                   ("❌ " ++ ("Connection error: " ++ err)))
                 ("Connection error: " ++ err)]) := by
  simp [parentSendMessageStream, hmsg]

/-- `send_message_stream` of the parent class on a non-200 status: the
user entry is appended to the in-memory history, and one error tuple is
yielded. -/
theorem parent_http_error_eq (st : ChatState) (message : String)
    (history : List ChatMsg) (backend model : String) (reasoning : Bool)
    (rMode : String) (status : Nat) (body : String)
    (hmsg : isBlank message = false) :
    parentSendMessageStream st message history backend model reasoning rMode
        (StreamOutcome.httpError status body)
      = ({ st with
            backend := backend
            currentModel := model
            showReasoning := reasoning
            reasoningMode := rMode
            conversationHistory := st.conversationHistory ++ [⟨"user", message⟩] },
         [Effect.yieldOut ""
            (setLast (history ++ [⟨"user", message⟩, ⟨"assistant", ""⟩])
              ("❌ " ++ ("Error: HTTP " ++ toString status ++ " - " ++ body)))
            ("Error: HTTP " ++ toString status ++ " - " ++ body)]) := by
  simp [parentSendMessageStream, hmsg]

/-- C1 counterexample: on a concrete Done-terminated exchange the
assistant-message append through the store occurs at index 4 of the
effect trace while the final completed-status yield occurs at index 3,
so the append does not precede the completion acknowledgment. -/
theorem c1_persist_before_ack_refuted :
    ¬ (doneTrace.findIdx Effect.isAssistantAppend
        < doneTrace.findIdx Effect.isCompletedYield) := by decide

/-- C1 (amended): for every Done-terminated streaming exchange with a
non-blank message and the database enabled, the accumulated assistant
text is appended through the store strictly AFTER the final
completed-status yield is delivered: the effect trace ends with the
completion yield immediately followed by the assistant append
(acknowledge-then-persist). -/
theorem c1_amended_persist_after_ack (st : ChatState) (message : String)
    (history : List ChatMsg) (backend model now : String) (reasoning : Bool)
    (rMode : String) (lines : List OllamaWire.Line)
    (hmsg : isBlank message = false) (hdb : st.databaseEnabled = true) :
    ∃ (es : List Effect) (sid : Nat) (hFinal : List ChatMsg) (text : String),
      (dbSendMessageStream st message history backend model reasoning rMode now
          (StreamOutcome.success lines)).2
        = es ++ [Effect.yieldOut "" hFinal
                   ("✅ Response completed using Ollama: " ++ model),
                 Effect.dbAppend sid "assistant" text
                   (assistantMetadata backend model reasoning rMode)] := by
  obtain ⟨sid, hsid, hdb1, -⟩ :=
    dbSendBegin_spec st message backend model now reasoning rMode hdb
  refine ⟨(dbSendBegin st message backend model reasoning rMode now).2
            ++ (streamOllamaLoop model lines
                 (history ++ [⟨"user", message⟩, ⟨"assistant", ""⟩]) "").1,
          sid,
          (streamOllamaLoop model lines
            (history ++ [⟨"user", message⟩, ⟨"assistant", ""⟩]) "").2.1,
          (streamOllamaLoop model lines
            (history ++ [⟨"user", message⟩, ⟨"assistant", ""⟩]) "").2.2, ?_⟩
  simp only [dbSendMessageStream]
  rw [parent_success_eq _ _ _ _ _ _ _ _ hmsg]
  simp [addMessageToDb, hsid, hdb1, List.getLast?_concat, List.append_assoc]

/-- C1 witness: the amended ordering at a concrete completed exchange on
`baseState`. -/
theorem c1_amended_persist_after_ack_witness :
    isBlank "hi" = false ∧ baseState.databaseEnabled = true
  ∧ ∃ (es : List Effect) (sid : Nat) (hFinal : List ChatMsg) (text : String),
      (dbSendMessageStream baseState "hi" [] "ollama" "llama3.1:8b" false
          "simple" "t" (StreamOutcome.success
            [OllamaWire.Line.frame (some "He") false,
             OllamaWire.Line.frame (some "llo") false,
             OllamaWire.Line.frame none true])).2
        = es ++ [Effect.yieldOut "" hFinal
                   ("✅ Response completed using Ollama: " ++ "llama3.1:8b"),
                 Effect.dbAppend sid "assistant" text
                   (assistantMetadata "ollama" "llama3.1:8b" false "simple")] :=
  ⟨by decide, rfl,
   c1_amended_persist_after_ack baseState "hi" [] "ollama" "llama3.1:8b" "t"
     false "simple"
     [OllamaWire.Line.frame (some "He") false,
      OllamaWire.Line.frame (some "llo") false,
      OllamaWire.Line.frame none true]
     (by decide) rfl⟩

/-- C2 counterexample: on a concrete exchange dropped after two Delta
fragments (accumulated partial text `"Hello"`, which is nonempty), the
effect trace contains NO assistant-message store append at all, and the
last tuple surfaced to the caller carries the display whose final entry
is the connection-error marker — the partial text has been overwritten,
not surfaced marked partial. -/
theorem c2_partial_persisted_refuted :
    OllamaWire.accumulated [OllamaWire.Line.frame (some "He") false,
        OllamaWire.Line.frame (some "llo") false] = "Hello"
  ∧ dropTrace.countP Effect.isAssistantAppend = 0
  ∧ dropTrace.getLast? = some (Effect.yieldOut ""
      [⟨"user", "hi"⟩, ⟨"assistant", "❌ Connection error: boom"⟩]
      "Connection error: boom") := by decide

/-- C2 (amended): when a streaming exchange fails mid-stream after any
number of Delta fragments, the accumulated partial text is NOT
persisted: the only store append of the whole call is the user row, no
assistant row (error-tagged or otherwise) is written, and the display
entry holding the partial text is overwritten with a connection-error
message. -/
theorem c2_amended_partial_discarded (st : ChatState) (message : String)
    (history : List ChatMsg) (backend model now : String) (reasoning : Bool)
    (rMode : String) (lines : List OllamaWire.Line) (err : String)
    (hmsg : isBlank message = false) (hdb : st.databaseEnabled = true) :
    ∃ sid,
      ((dbSendMessageStream st message history backend model reasoning rMode now
          (StreamOutcome.connectionError lines err)).2.filter Effect.isDbAppendB)
        = [Effect.dbAppend sid "user" message []] := by
  obtain ⟨sid, hsid, hdb1, hfil⟩ :=
    dbSendBegin_spec st message backend model now reasoning rMode hdb
  refine ⟨sid, ?_⟩
  simp only [dbSendMessageStream]
  rw [parent_connection_error_eq _ _ _ _ _ _ _ _ _ hmsg]
  simp [List.filter_append, hfil, streamOllamaLoop_no_append,
    List.getLast?_concat, Effect.isDbAppendB]

/-- C2 witness: the amended behaviour at the concrete dropped exchange of
the counterexample. -/
theorem c2_amended_partial_discarded_witness :
    isBlank "hi" = false ∧ baseState.databaseEnabled = true
  ∧ ∃ sid,
      ((dbSendMessageStream baseState "hi" [] "ollama" "llama3.1:8b" false
          "simple" "t" (StreamOutcome.connectionError
            [OllamaWire.Line.frame (some "He") false,
             OllamaWire.Line.frame (some "llo") false] "boom")).2.filter
          Effect.isDbAppendB)
        = [Effect.dbAppend sid "user" "hi" []] :=
  ⟨by decide, rfl,
   c2_amended_partial_discarded baseState "hi" [] "ollama" "llama3.1:8b" "t"
     false "simple"
     [OllamaWire.Line.frame (some "He") false,
      OllamaWire.Line.frame (some "llo") false] "boom"
     (by decide) rfl⟩

/-- C3 counterexample: `busyState` is session 1 right after a first call
entered its streaming phase (one persisted row).  A second call on the
same session is not rejected: its pre-stream statements run exactly as
for a first call, appending the user row, and the session's persisted
message count rises from 1 to 2 — so the claimed `SessionBusy` rejection
with an unchanged count is false. -/
theorem c3_session_busy_refuted :
    (sessionMessages busyState.db 1).length = 1
  ∧ (dbSendBegin busyState "again" "ollama" "llama3.1:8b" false "simple" "t").2
      = [Effect.dbAppend 1 "user" "again" []]
  ∧ (sessionMessages (dbSendBegin busyState "again" "ollama" "llama3.1:8b"
        false "simple" "t").1.db 1).length = 2 := by decide

/-- C3 (amended): the orchestrator keeps no per-session exchange state,
so a second begin/continue call on a session whose exchange is already
in flight is NOT rejected: it proceeds exactly like a first call,
appending its user message through the store and increasing that
session's persisted message count by one. -/
theorem c3_amended_no_busy_rejection (st : ChatState)
    (message backend model now : String) (reasoning : Bool) (rMode : String)
    (sid : Nat) (hdb : st.databaseEnabled = true)
    (hsid : st.currentSessionId = some sid) :
    (dbSendBegin st message backend model reasoning rMode now).2
        = [Effect.dbAppend sid "user" message []]
  ∧ (sessionMessages
        (dbSendBegin st message backend model reasoning rMode now).1.db
        sid).length
      = (sessionMessages st.db sid).length + 1 := by
  constructor
  · simp [dbSendBegin, hsid, addMessageToDb, hdb]
  · simp [dbSendBegin, hsid, addMessageToDb, hdb,
      sessionMessages_addMessage_self]

/-- C3 witness: the amended behaviour at the concrete busy state of the
counterexample. -/
theorem c3_amended_no_busy_rejection_witness :
    busyState.databaseEnabled = true ∧ busyState.currentSessionId = some 1
  ∧ ((dbSendBegin busyState "again" "ollama" "llama3.1:8b" false "simple"
        "t").2 = [Effect.dbAppend 1 "user" "again" []]
     ∧ (sessionMessages (dbSendBegin busyState "again" "ollama" "llama3.1:8b"
           false "simple" "t").1.db 1).length
         = (sessionMessages busyState.db 1).length + 1) :=
  ⟨rfl, rfl,
   c3_amended_no_busy_rejection busyState "again" "ollama" "llama3.1:8b" "t"
     false "simple" 1 rfl rfl⟩

/-- C5: the code evaluated at the failing input.  On `staleHistoryState`
— a session with one completed exchange, whose in-memory history
therefore ends with the previous assistant reply — a continue call with
a whitespace-only message fails before any backend byte, yet persists
TWO new rows: the blank user message and a duplicate of the previous
assistant reply (the session grows from 2 to 4 rows), where the claim —
and the intent documented in the code comments — allow only the user
row. -/
theorem c5_blank_message_persists_two_rows :
    ((dbSendMessageStream staleHistoryState " " [] "ollama" "llama3.1:8b"
        false "simple" "t" (StreamOutcome.success [])).2.filter
        Effect.isDbAppendB)
      = [Effect.dbAppend 1 "user" " " [],
         Effect.dbAppend 1 "assistant" "Hello"
           (assistantMetadata "ollama" "llama3.1:8b" false "simple")]
  ∧ (sessionMessages (dbSendMessageStream staleHistoryState " " [] "ollama"
        "llama3.1:8b" false "simple" "t"
        (StreamOutcome.success [])).1.db 1).length = 4 := by decide

/-- A full `send_message_stream` call starting with no current session:
the call works entirely inside the freshly created session — it ends
current on that fresh session, and the rows of every other session are
untouched, whatever the message and the backend outcome. -/
theorem dbSend_fresh_session_proj (st : ChatState) (message : String)
    (history : List ChatMsg) (backend model now : String) (reasoning : Bool)
    (rMode : String) (outcome : StreamOutcome) (s : Nat)
    (hdb : st.databaseEnabled = true) (hcs : st.currentSessionId = none)
    (hne : freshSessionId st.db ≠ s) :
    (dbSendMessageStream st message history backend model reasoning rMode now
        outcome).1.currentSessionId = some (freshSessionId st.db)
  ∧ sessionMessages (dbSendMessageStream st message history backend model
        reasoning rMode now outcome).1.db s
      = sessionMessages st.db s := by
  have hb_db : (dbSendBegin st message backend model reasoning rMode now).1.db
      = addMessage (createSession st.db backend model none now).1
          (freshSessionId st.db) "user" message [] := by
    simp [dbSendBegin, startNewSession, addMessageToDb, createSession, hcs, hdb]
  have hb_sid : (dbSendBegin st message backend model reasoning rMode
      now).1.currentSessionId = some (freshSessionId st.db) := by
    simp [dbSendBegin, startNewSession, addMessageToDb, createSession, hcs, hdb]
  have hb_en : (dbSendBegin st message backend model reasoning rMode
      now).1.databaseEnabled = true := by
    simp [dbSendBegin, startNewSession, addMessageToDb, createSession, hcs, hdb]
  have hb_ch : (dbSendBegin st message backend model reasoning rMode
      now).1.conversationHistory = [] := by
    simp [dbSendBegin, startNewSession, addMessageToDb, createSession, hcs, hdb]
  have hmsgs : sessionMessages
      (dbSendBegin st message backend model reasoning rMode now).1.db s
      = sessionMessages st.db s := by
    rw [hb_db, sessionMessages_addMessage_ne _ _ _ _ _ _ hne,
      sessionMessages_createSession]
  cases hblank : isBlank message with
  | true =>
      simp only [dbSendMessageStream]
      rw [parent_blank_eq _ _ _ _ _ _ _ _ hblank]
      simp [hb_ch, hb_sid, hmsgs]
  | false =>
      cases outcome with
      | httpError status body =>
          simp only [dbSendMessageStream]
          rw [parent_http_error_eq _ _ _ _ _ _ _ _ _ hblank]
          simp [hb_ch, hb_sid, hmsgs, List.getLast?_concat]
      | connectionError lines err =>
          simp only [dbSendMessageStream]
          rw [parent_connection_error_eq _ _ _ _ _ _ _ _ _ hblank]
          simp [hb_ch, hb_sid, hmsgs, List.getLast?_concat]
      | success lines =>
          simp only [dbSendMessageStream]
          rw [parent_success_eq _ _ _ _ _ _ _ _ hblank]
          simp [addMessageToDb, hb_ch, hb_sid, hb_en, hmsgs,
            List.getLast?_concat,
            sessionMessages_addMessage_ne _ _ _ _ _ _ hne]

/-- C9: `clear_conversation` deletes and mutates nothing persisted — the
store is exactly the same after the call; it only resets the in-memory
working set (conversation buffer, current session id); and the next
message after a clear opens a brand-new session row — its id is not any
previously existing session id — leaving the rows of every previously
persisted session unchanged. -/
theorem c9_clear_frame (st : ChatState) (message : String)
    (history : List ChatMsg) (backend model now : String) (reasoning : Bool)
    (rMode : String) (outcome : StreamOutcome) (sid : Nat)
    (hdb : st.databaseEnabled = true)
    (hsid : sid ∈ st.db.sessions.map (fun s => s.sessionId)) :
    (clearConversation st).1.db = st.db
  ∧ (clearConversation st).1.currentSessionId = none
  ∧ (clearConversation st).1.conversationHistory = []
  ∧ (dbSendMessageStream (clearConversation st).1 message history backend
        model reasoning rMode now outcome).1.currentSessionId
      = some (freshSessionId st.db)
  ∧ freshSessionId st.db ∉ st.db.sessions.map (fun s => s.sessionId)
  ∧ sessionMessages (dbSendMessageStream (clearConversation st).1 message
        history backend model reasoning rMode now outcome).1.db sid
      = sessionMessages st.db sid := by
  have hfresh : freshSessionId st.db
      ∉ st.db.sessions.map (fun s => s.sessionId) := by
    intro hmem
    have hle := foldl_max_mem_le (st.db.sessions.map (fun s => s.sessionId)) 0
      (freshSessionId st.db) hmem
    simp only [freshSessionId] at hle
    omega
  have hne : freshSessionId st.db ≠ sid := by
    intro h
    rw [h] at hfresh
    exact hfresh hsid
  have hproj := dbSend_fresh_session_proj (clearConversation st).1 message
    history backend model now reasoning rMode outcome sid hdb rfl hne
  exact ⟨rfl, rfl, rfl, hproj.1, hfresh, hproj.2⟩

/-- C9 witness: the frame property at `baseState`, whose store has the
one session 1, with a concrete completed exchange after the clear. -/
theorem c9_clear_frame_witness :
    baseState.databaseEnabled = true
  ∧ (1 : Nat) ∈ baseState.db.sessions.map (fun s => s.sessionId)
  ∧ ((clearConversation baseState).1.db = baseState.db
     ∧ (clearConversation baseState).1.currentSessionId = none
     ∧ (clearConversation baseState).1.conversationHistory = []
     ∧ (dbSendMessageStream (clearConversation baseState).1 "hi" [] "ollama"
          "llama3.1:8b" false "simple" "t" doneOutcome).1.currentSessionId
         = some (freshSessionId baseState.db)
     ∧ freshSessionId baseState.db
         ∉ baseState.db.sessions.map (fun s => s.sessionId)
     ∧ sessionMessages (dbSendMessageStream (clearConversation baseState).1
          "hi" [] "ollama" "llama3.1:8b" false "simple" "t"
          doneOutcome).1.db 1
         = sessionMessages baseState.db 1) :=
  ⟨rfl, by decide,
   c9_clear_frame baseState "hi" [] "ollama" "llama3.1:8b" "t" false "simple"
     doneOutcome 1 rfl (by decide)⟩

end ThaiChat
